import Mathlib

/-!
Verification of the merchant lifecycle engine of the dabdub payments
backend.  The definitions below are a shallow embedding of the
MerchantService (merchant.service.ts) and the merchant entity: machine
time is a `Nat` counted in hours, external collaborators (bcrypt, the
crypto token generator, the email sender, the bank verification
provider) become explicit parameters, the persistence layer becomes a
`List Merchant` with explicit lookup and update functions, and every
method that can throw returns `Except MerchantError`.
-/

namespace DabDub

/-- Merchant account status (merchant.entity.ts). -/
inductive MerchantStatus where
  | pending
  | active
  | inactive
  | suspended
  | closed
deriving DecidableEq, Repr

/-- KYC verification status (merchant.entity.ts). -/
inductive KycStatus where
  | notStarted
  | pending
  | inReview
  | approved
  | rejected
  | expired
deriving DecidableEq, Repr

/-- Bank account verification status (merchant.entity.ts). -/
inductive BankAccountStatus where
  | notVerified
  | pending
  | verified
  | failed
deriving DecidableEq, Repr

/-- KYC document record (merchant.entity.ts `KycDocument`); the upload
timestamp is a `Nat` hour count and the per-document status is kept as
the literal string the service writes. -/
structure KycDocument where
  type : String
  fileName : String
  fileUrl : String
  uploadedAt : Nat
  status : String
  rejectionReason : Option String
deriving DecidableEq, Repr

/-- Notification preference bundle (merchant.entity.ts). -/
structure NotificationPreferences where
  emailNotifications : Bool
  smsNotifications : Bool
  pushNotifications : Bool
  paymentReceived : Bool
  settlementCompleted : Bool
  kycStatusUpdate : Bool
  securityAlerts : Bool
  marketingEmails : Bool
deriving DecidableEq, Repr

/-- The merchant entity (merchant.entity.ts, the richer current schema),
restricted to the columns the service methods embedded below read or
write.  Timestamps are `Nat` hours, ids are `Nat`. -/
structure Merchant where
  id : Nat
  name : String
  businessName : Option String
  email : String
  passwordHash : String
  phone : Option String
  website : Option String
  businessType : Option String
  status : MerchantStatus
  kycStatus : KycStatus
  kycSubmittedAt : Option Nat
  kycVerifiedAt : Option Nat
  kycRejectionReason : Option String
  kycDocuments : List KycDocument
  emailVerified : Bool
  emailVerificationToken : Option String
  emailVerificationExpiresAt : Option Nat
  emailVerifiedAt : Option Nat
  bankAccountNumber : Option String
  bankRoutingNumber : Option String
  bankAccountHolderName : Option String
  bankName : Option String
  bankSwiftCode : Option String
  bankIban : Option String
  bankAccountStatus : BankAccountStatus
  bankVerifiedAt : Option Nat
  supportedCurrencies : List String
  defaultCurrency : String
  settlementFrequency : String
  minimumSettlementAmount : Nat
  autoSettlementEnabled : Bool
  notificationPreferences : Option NotificationPreferences
  apiQuotaLimit : Nat
  apiQuotaUsed : Nat
  apiQuotaResetAt : Option Nat
  suspensionReason : Option String
  closedAt : Option Nat
  closedReason : Option String
deriving DecidableEq, Repr

/-- Equality on `Except` results is decidable componentwise. -/
instance {ε α : Type} [DecidableEq ε] [DecidableEq α] :
    DecidableEq (Except ε α) := fun a b =>
  match a, b with
  | .ok x, .ok y =>
    if h : x = y then .isTrue (by rw [h]) else .isFalse (by simp [h])
  | .ok _, .error _ => .isFalse (by simp)
  | .error _, .ok _ => .isFalse (by simp)
  | .error e, .error f =>
    if h : e = f then .isTrue (by rw [h]) else .isFalse (by simp [h])

/-- The domain error taxonomy (merchant.exceptions.ts), one constructor
per exception class the service throws, carrying the same payloads.
`emailSendFailed` stands for an error thrown by the external email
sender itself (IEmailService), which the service either catches or
lets propagate. -/
inductive MerchantError where
  | notFound
  | alreadyExists (email : String)
  | suspended (reason : Option String)
  | closed
  | invalidStatus (current requested : MerchantStatus)
  | emailNotVerified
  | emailAlreadyVerified
  | tokenInvalid
  | tokenExpired
  | kycAlreadyApproved
  | kycAlreadySubmitted
  | kycDocumentRequired (missing : String)
  | kycInvalidStatus (current : KycStatus) (decision : String)
  | bankAccountNotFound
  | bankAccountAlreadyVerified
  | bankAccountVerificationFailed (providerError : Option String)
  | bankAccountInvalid (message : String)
  | quotaExceeded (limit : Nat) (resetAt : Option Nat)
  | emailSendFailed
deriving DecidableEq, Repr

/-- The service's `email.toLowerCase()`: charwise ASCII lowering. -/
def lowerString (s : String) : String :=
  String.mk (s.data.map Char.toLower)

/-- An attempt by the external email sender: `emailOk = true` means the
send resolves, `false` means it throws.  Each service method receives
the flag for the send it performs. -/
def emailAttempt (emailOk : Bool) : Except MerchantError Unit :=
  if emailOk then .ok () else .error .emailSendFailed

/-- Shallow embedding of a `try { await send } catch (e) { log }` block
followed by continuation `k`: the failure is swallowed either way. -/
def caught {α : Type} (attempt : Except MerchantError Unit) (k : α) : α :=
  match attempt with
  | .ok _ => k
  | .error _ => k

/-- `VALID_STATUS_TRANSITIONS` (merchant.service.ts lines 57-63). -/
def validStatusTransitions : MerchantStatus → List MerchantStatus
  | .pending => [.active, .suspended, .closed]
  | .active => [.inactive, .suspended, .closed]
  | .inactive => [.active, .suspended, .closed]
  | .suspended => [.active, .closed]
  | .closed => []

/-- `ChangeMerchantStatusDto`: requested status plus optional reason. -/
structure ChangeMerchantStatusDto where
  status : MerchantStatus
  reason : Option String
deriving DecidableEq, Repr

/-- `changeMerchantStatus` (merchant.service.ts lines 575-611): validate
the requested transition against the table, record reason/closure
metadata, persist the new status, then best-effort (caught) send the
suspension or reactivation email. -/
def changeMerchantStatus (m : Merchant) (dto : ChangeMerchantStatusDto)
    (now : Nat) (emailOk : Bool) : Except MerchantError Merchant :=
  if dto.status ∈ validStatusTransitions m.status then
    let m1 : Merchant :=
      match dto.status with
      | .suspended => { m with suspensionReason := dto.reason }
      | .closed => { m with closedAt := some now, closedReason := dto.reason }
      | _ => m
    let m2 : Merchant := { m1 with status := dto.status }
    let attempt : Except MerchantError Unit :=
      if dto.status = .suspended then emailAttempt emailOk
      else if dto.status = .active ∧ m.status = .suspended then emailAttempt emailOk
      else .ok ()
    caught attempt (.ok m2)
  else
    .error (.invalidStatus m.status dto.status)

/-- The merchant state after a `changeMerchantStatus` request: the
stored record when the call succeeds, the unchanged record when the
service throws before any store write. -/
def afterStatusChange (m : Merchant) (dto : ChangeMerchantStatusDto)
    (now : Nat) (emailOk : Bool) : Merchant :=
  match changeMerchantStatus m dto now emailOk with
  | .ok m2 => m2
  | .error _ => m

/-- `checkAndIncrementApiQuota` (merchant.service.ts lines 714-722):
throw `QuotaExceeded(limit, resetAt)` when `used >= limit`, otherwise
increment the used counter by one. -/
def checkAndIncrementApiQuota (m : Merchant) : Except MerchantError Merchant :=
  if m.apiQuotaLimit ≤ m.apiQuotaUsed then
    .error (.quotaExceeded m.apiQuotaLimit m.apiQuotaResetAt)
  else
    .ok { m with apiQuotaUsed := m.apiQuotaUsed + 1 }

/-- The merchant state after one quota check: updated on success,
unchanged when the call throws. -/
def afterQuotaCall (m : Merchant) : Merchant :=
  match checkAndIncrementApiQuota m with
  | .ok m2 => m2
  | .error _ => m

/-- The merchant state after a sequence of `n` quota checks. -/
def iterateQuotaCalls (m : Merchant) : Nat → Merchant
  | 0 => m
  | n + 1 => iterateQuotaCalls (afterQuotaCall m) n

/-- `UpdateApiQuotaDto`: the new quota limit. -/
structure UpdateApiQuotaDto where
  apiQuotaLimit : Nat
deriving DecidableEq, Repr

/-- `updateApiQuota` (merchant.service.ts lines 698-707): the admin
limit change writes the new limit unconditionally, with no check
against the current used counter. -/
def updateApiQuota (m : Merchant) (dto : UpdateApiQuotaDto) : Merchant :=
  { m with apiQuotaLimit := dto.apiQuotaLimit }

/-- Modelled from the spec: the Record Store's quota reset used by the
daily `resetApiQuotas` job (its implementation lives in the repository
layer, absent from the snapshot); the spec says the job resets every
merchant's `apiQuotaUsed` to 0. -/
def resetApiQuota (m : Merchant) : Merchant :=
  { m with apiQuotaUsed := 0 }

/-- `validateMerchantActive` (merchant.service.ts lines 787-794): throw
`Suspended(reason)` for suspended merchants, `Closed` for closed
ones. -/
def validateMerchantActive (m : Merchant) : Except MerchantError Unit :=
  if m.status = .suspended then .error (.suspended m.suspensionReason)
  else if m.status = .closed then .error .closed
  else .ok ()

/-- `VerifyKycDto`: the admin decision string and an optional rejection
reason. -/
structure VerifyKycDto where
  decision : String
  rejectionReason : Option String
deriving DecidableEq, Repr

/-- `verifyKyc` (merchant.service.ts lines 386-429): reject unless the
KYC status is PENDING or IN_REVIEW; on "approved" set
kycStatus=APPROVED and kycVerifiedAt, and additionally set
status=ACTIVE when the email is verified and the status is PENDING;
otherwise set kycStatus=REJECTED with the reason.  The decision email
is sent inside try/catch. -/
def verifyKyc (m : Merchant) (dto : VerifyKycDto) (now : Nat)
    (emailOk : Bool) : Except MerchantError Merchant :=
  if m.kycStatus = .pending ∨ m.kycStatus = .inReview then
    if dto.decision = "approved" then
      let m1 : Merchant := { m with kycStatus := .approved, kycVerifiedAt := some now }
      let m2 : Merchant :=
        if m.emailVerified ∧ m.status = .pending then { m1 with status := .active } else m1
      caught (emailAttempt emailOk) (.ok m2)
    else
      let m1 : Merchant :=
        { m with kycStatus := .rejected, kycRejectionReason := dto.rejectionReason }
      caught (emailAttempt emailOk) (.ok m1)
  else
    .error (.kycInvalidStatus m.kycStatus dto.decision)

/-- One submitted KYC document in `SubmitKycDto`. -/
structure KycDocumentInput where
  type : String
  fileName : String
  fileUrl : String
deriving DecidableEq, Repr

/-- `SubmitKycDto`: the submitted document list. -/
structure SubmitKycDto where
  documents : List KycDocumentInput
deriving DecidableEq, Repr

/-- `submitKycDocuments` (merchant.service.ts lines 331-378): require a
verified email, reject when already APPROVED or IN_REVIEW, require the
document types to include government_id and proof_of_address, then
store the stamped documents and set kycStatus=PENDING.  The
confirmation email is sent inside try/catch. -/
def submitKycDocuments (m : Merchant) (dto : SubmitKycDto) (now : Nat)
    (emailOk : Bool) : Except MerchantError Merchant :=
  if ¬ m.emailVerified then .error .emailNotVerified
  else if m.kycStatus = .approved then .error .kycAlreadyApproved
  else if m.kycStatus = .inReview then .error .kycAlreadySubmitted
  else
    let submittedTypes := dto.documents.map (fun d => d.type)
    let missingDocs := ["government_id", "proof_of_address"].filter
      (fun t => ¬ submittedTypes.contains t)
    if 0 < missingDocs.length then
      .error (.kycDocumentRequired (String.intercalate ", " missingDocs))
    else
      let kycDocuments : List KycDocument := dto.documents.map
        (fun d => { type := d.type, fileName := d.fileName, fileUrl := d.fileUrl,
                    uploadedAt := now, status := "pending", rejectionReason := none })
      let m1 : Merchant :=
        { m with kycStatus := .pending, kycDocuments := kycDocuments,
                 kycSubmittedAt := some now }
      caught (emailAttempt emailOk) (.ok m1)

/-- `CurrencySettingsDto`: the requested currency set and default. -/
structure CurrencySettingsDto where
  supportedCurrencies : List String
  defaultCurrency : String
deriving DecidableEq, Repr

/-- `updateCurrencySettings` (merchant.service.ts lines 551-567): blocked
for suspended/closed merchants; pushes the default currency onto the
supported list when missing, then stores both. -/
def updateCurrencySettings (m : Merchant) (dto : CurrencySettingsDto) :
    Except MerchantError Merchant :=
  match validateMerchantActive m with
  | .error e => .error e
  | .ok _ =>
    let sc :=
      if dto.supportedCurrencies.contains dto.defaultCurrency then
        dto.supportedCurrencies
      else
        dto.supportedCurrencies ++ [dto.defaultCurrency]
    .ok { m with supportedCurrencies := sc, defaultCurrency := dto.defaultCurrency }

/-- JS truthiness of an optional string: absent and empty strings are
falsy (the service guards the optional bank fields this way). -/
def strTruthy : Option String → Bool
  | none => false
  | some s => ¬ s.isEmpty

/-- The anchored regex `^\d{4,17}$` for the account number. -/
def isAccountNumberFormat (s : String) : Prop :=
  4 ≤ s.toList.length ∧ s.toList.length ≤ 17 ∧ ∀ c ∈ s.toList, c.isDigit

instance (s : String) : Decidable (isAccountNumberFormat s) := by
  unfold isAccountNumberFormat; infer_instance

/-- The anchored regex `^\d{9}$` for the routing number. -/
def isRoutingNumberFormat (s : String) : Prop :=
  s.toList.length = 9 ∧ ∀ c ∈ s.toList, c.isDigit

instance (s : String) : Decidable (isRoutingNumberFormat s) := by
  unfold isRoutingNumberFormat; infer_instance

/-- The anchored regex for SWIFT codes,
six uppercase letters, two uppercase alphanumerics, then an optional
group of three more uppercase alphanumerics. -/
def isSwiftCodeFormat (s : String) : Prop :=
  (s.toList.length = 8 ∨ s.toList.length = 11) ∧
  (∀ c ∈ s.toList.take 6, c.isUpper) ∧
  (∀ c ∈ s.toList.drop 6, c.isUpper ∨ c.isDigit)

instance (s : String) : Decidable (isSwiftCodeFormat s) := by
  unfold isSwiftCodeFormat; infer_instance

/-- The anchored IBAN regex: two uppercase
letters, two digits, then 4 to 30 uppercase alphanumerics. -/
def isIbanFormat (s : String) : Prop :=
  8 ≤ s.toList.length ∧ s.toList.length ≤ 34 ∧
  (∀ c ∈ s.toList.take 2, c.isUpper) ∧
  (∀ c ∈ (s.toList.drop 2).take 2, c.isDigit) ∧
  (∀ c ∈ s.toList.drop 4, c.isUpper ∨ c.isDigit)

instance (s : String) : Decidable (isIbanFormat s) := by
  unfold isIbanFormat; infer_instance

/-- `BankAccountDto` as used by the service: required account number and
optional routing number, holder name, bank name, SWIFT code and IBAN. -/
structure BankAccountDto where
  accountNumber : String
  routingNumber : Option String
  accountHolderName : Option String
  bankName : Option String
  swiftCode : Option String
  iban : Option String
deriving DecidableEq, Repr

/-- `validateBankAccountDetails` (merchant.service.ts lines 810-830):
each check throws `BankAccountInvalid` with its specific message;
optional fields are validated only when truthy. -/
def validateBankAccountDetails (dto : BankAccountDto) : Except MerchantError Unit :=
  if ¬ isAccountNumberFormat dto.accountNumber then
    .error (.bankAccountInvalid "Invalid account number format")
  else if strTruthy dto.routingNumber ∧ ¬ isRoutingNumberFormat (dto.routingNumber.getD "") then
    .error (.bankAccountInvalid "Invalid routing number format")
  else if strTruthy dto.swiftCode ∧ ¬ isSwiftCodeFormat (dto.swiftCode.getD "") then
    .error (.bankAccountInvalid "Invalid SWIFT code format")
  else if strTruthy dto.iban ∧ ¬ isIbanFormat (dto.iban.getD "") then
    .error (.bankAccountInvalid "Invalid IBAN format")
  else
    .ok ()

/-- `updateBankAccount` (merchant.service.ts lines 437-456): blocked for
suspended/closed merchants, validates the details, then stores the
fields and sets bankAccountStatus=PENDING. -/
def updateBankAccount (m : Merchant) (dto : BankAccountDto) :
    Except MerchantError Merchant :=
  match validateMerchantActive m with
  | .error e => .error e
  | .ok _ =>
    match validateBankAccountDetails dto with
    | .error e => .error e
    | .ok _ =>
      .ok { m with
            bankAccountNumber := some dto.accountNumber,
            bankRoutingNumber := dto.routingNumber,
            bankAccountHolderName := dto.accountHolderName,
            bankName := dto.bankName,
            bankSwiftCode := dto.swiftCode,
            bankIban := dto.iban,
            bankAccountStatus := .pending }

/-- Result reported by the external bank verification provider. -/
structure BankVerifyResult where
  success : Bool
  error : Option String
deriving DecidableEq, Repr

/-- `verifyBankAccount` (merchant.service.ts lines 463-500): require
stored account and routing numbers (JS truthiness), reject when already
VERIFIED, call the provider; on provider failure mark FAILED in the
store and then throw, on success mark VERIFIED and stamp
bankVerifiedAt.  The notification email is sent inside try/catch.  The
first component is the call's outcome, the second the stored merchant
state after the call (the FAILED write survives the throw). -/
def verifyBankAccount (m : Merchant) (result : BankVerifyResult) (now : Nat)
    (emailOk : Bool) : Except MerchantError Merchant × Merchant :=
  if ¬ strTruthy m.bankAccountNumber ∨ ¬ strTruthy m.bankRoutingNumber then
    (.error .bankAccountNotFound, m)
  else if m.bankAccountStatus = .verified then
    (.error .bankAccountAlreadyVerified, m)
  else if ¬ result.success then
    ((.error (.bankAccountVerificationFailed result.error)),
     { m with bankAccountStatus := .failed })
  else
    let m1 : Merchant :=
      { m with bankAccountStatus := .verified, bankVerifiedAt := some now }
    (caught (emailAttempt emailOk) (.ok m1), m1)

/-- The Merchant Record Store's persisted state: the merchants table. -/
abbrev Store := List Merchant

/-- Modelled from the spec: the Record Store's `findByEmail` (repository
layer absent from the snapshot).  The spec fixes that emails are stored
lowercased and that the lookup is case-insensitive, so the query is
lowercased and compared against the stored column. -/
def findByEmail (store : Store) (email : String) : Option Merchant :=
  store.find? (fun m => m.email == lowerString email)

/-- Modelled from the spec: the Record Store's `findByVerificationToken`
(repository layer absent from the snapshot): look the merchant up by
its stored verification token. -/
def findByVerificationToken (store : Store) (token : String) : Option Merchant :=
  store.find? (fun m => m.emailVerificationToken == some token)

/-- Modelled from the spec: the Record Store's partial `update` by id
(repository layer absent from the snapshot): replace the row whose id
matches. -/
def updateById (store : Store) (id : Nat) (m2 : Merchant) : Store :=
  store.map (fun x => if x.id == id then m2 else x)

/-- `RegisterMerchantDto`: name, email and password are required, the
business fields optional. -/
structure RegisterMerchantDto where
  name : String
  email : String
  password : String
  businessName : Option String
  phone : Option String
  website : Option String
  businessType : Option String
deriving DecidableEq, Repr

/-- `getDefaultNotificationPreferences` (merchant.service.ts lines
774-785). -/
def defaultNotificationPreferences : NotificationPreferences :=
  { emailNotifications := true
    smsNotifications := false
    pushNotifications := true
    paymentReceived := true
    settlementCompleted := true
    kycStatusUpdate := true
    securityAlerts := true
    marketingEmails := false }

/-- The merchant row `registerMerchant` creates (merchant.service.ts
lines 117-139).  The bcrypt hash and the random verification token are
produced by external collaborators and arrive as parameters; the 24
hour expiry becomes `now + 24` in hour units. -/
def mkMerchant (id : Nat) (dto : RegisterMerchantDto)
    (passwordHash verificationToken : String) (now : Nat) : Merchant :=
  { id := id
    name := dto.name
    businessName := dto.businessName
    email := lowerString dto.email
    passwordHash := passwordHash
    phone := dto.phone
    website := dto.website
    businessType := dto.businessType
    status := .pending
    kycStatus := .notStarted
    kycSubmittedAt := none
    kycVerifiedAt := none
    kycRejectionReason := none
    kycDocuments := []
    emailVerified := false
    emailVerificationToken := some verificationToken
    emailVerificationExpiresAt := some (now + 24)
    emailVerifiedAt := none
    bankAccountNumber := none
    bankRoutingNumber := none
    bankAccountHolderName := none
    bankName := none
    bankSwiftCode := none
    bankIban := none
    bankAccountStatus := .notVerified
    bankVerifiedAt := none
    supportedCurrencies := ["USD"]
    defaultCurrency := "USD"
    settlementFrequency := "daily"
    minimumSettlementAmount := 0
    autoSettlementEnabled := true
    notificationPreferences := some defaultNotificationPreferences
    apiQuotaLimit := 1000
    apiQuotaUsed := 0
    apiQuotaResetAt := none
    suspensionReason := none
    closedAt := none
    closedReason := none }

/-- `registerMerchant` (merchant.service.ts lines 99-150): throw
`AlreadyExists` when `findByEmail` hits, otherwise create the row (the
fresh uuid is modelled as the next numeric id) and best-effort (caught)
send the verification email. -/
def registerMerchant (store : Store) (dto : RegisterMerchantDto)
    (passwordHash verificationToken : String) (now : Nat) (emailOk : Bool) :
    Except MerchantError (Merchant × Store) :=
  match findByEmail store dto.email with
  | some _ => .error (.alreadyExists dto.email)
  | none =>
    let m := mkMerchant store.length dto passwordHash verificationToken now
    caught (emailAttempt emailOk) (.ok (m, store ++ [m]))

/-- The JS expiry test `expiresAt && expiresAt < new Date()`: a missing
expiry never counts as expired. -/
def tokenExpiredAt : Option Nat → Nat → Bool
  | some e, now => decide (e < now)
  | none, _ => false

/-- `verifyEmail` (merchant.service.ts lines 157-189): look up by token,
throw `TokenInvalid` / `AlreadyVerified` / `TokenExpired` in that
order, then set the verified flags and clear token and expiry.  The
welcome email is sent inside try/catch. -/
def verifyEmail (store : Store) (token : String) (now : Nat) (emailOk : Bool) :
    Except MerchantError (Merchant × Store) :=
  match findByVerificationToken store token with
  | none => .error .tokenInvalid
  | some m =>
    if m.emailVerified then .error .emailAlreadyVerified
    else if tokenExpiredAt m.emailVerificationExpiresAt now then .error .tokenExpired
    else
      let m2 : Merchant :=
        { m with emailVerified := true, emailVerifiedAt := some now,
                 emailVerificationToken := none, emailVerificationExpiresAt := none }
      caught (emailAttempt emailOk) (.ok (m2, updateById store m.id m2))

/-- `resendVerificationEmail` (merchant.service.ts lines 195-217): look
up by email, reject when missing or already verified, persist a fresh
token and expiry, then send the verification email WITHOUT a try/catch
guard — a sender failure propagates to the caller after the store
update has already happened.  The first component is the call's
outcome, the second the stored state after the call. -/
def resendVerificationEmail (store : Store) (email newToken : String)
    (now : Nat) (emailOk : Bool) : Except MerchantError Unit × Store :=
  match findByEmail store email with
  | none => (.error .notFound, store)
  | some m =>
    if m.emailVerified then (.error .emailAlreadyVerified, store)
    else
      let m2 : Merchant :=
        { m with emailVerificationToken := some newToken,
                 emailVerificationExpiresAt := some (now + 24) }
      let store2 := updateById store m.id m2
      match emailAttempt emailOk with
      | .ok _ => (.ok (), store2)
      | .error e => (.error e, store2)

/-- Admin user roles (user.entity.ts, referenced by the admin auth
tests). -/
inductive UserRole where
  | admin
  | supportAdmin
  | user
deriving DecidableEq, Repr

/-- An admin-capable user row as the Admin Auth Engine reads it. -/
structure AdminUser where
  id : String
  email : String
  role : UserRole
  isActive : Bool
deriving DecidableEq, Repr

/-- One row of the append-only admin login attempt table. -/
structure LoginAttempt where
  email : String
  success : Bool
  time : Nat
deriving DecidableEq, Repr

/-- Modelled from the spec: the lockout counter of the Admin Auth
Engine — the number of failed attempts for the email whose timestamp
falls within the lockout window ending at `now`. -/
def countRecentFailedAttempts (attempts : List LoginAttempt) (email : String)
    (now window : Nat) : Nat :=
  (attempts.filter
    (fun a => a.email == email && !a.success && decide (now ≤ a.time + window))).length

/-- Errors of the Admin Auth Engine. -/
inductive AdminAuthError where
  | unauthorized
  | forbidden
deriving DecidableEq, Repr

/-- The admin identity returned by a successful login. -/
structure AdminLoginResult where
  id : String
  email : String
  role : UserRole
deriving DecidableEq, Repr

/-- Modelled from the spec: the Admin Auth Engine's login state machine
(admin-auth.service.ts is absent from the snapshot; only its unit tests
are present).  Spec steps in order: (1) at 5 or more recent failed
attempts fail Forbidden regardless of credential correctness; (2) fail
Unauthorized when the user is absent or the role is not ADMIN or
SUPPORT_ADMIN; (3) fail Unauthorized on a password mismatch; (4)
otherwise succeed with the admin identity.  The user lookup and the
bcrypt comparison are external collaborators and arrive as
parameters. -/
def adminLogin (attempts : List LoginAttempt) (now window : Nat)
    (user : Option AdminUser) (passwordOk : Bool) (email : String) :
    Except AdminAuthError AdminLoginResult :=
  if 5 ≤ countRecentFailedAttempts attempts email now window then
    .error .forbidden
  else
    match user with
    | none => .error .unauthorized
    | some u =>
      if u.role = .admin ∨ u.role = .supportAdmin then
        if passwordOk then .ok { id := u.id, email := u.email, role := u.role }
        else .error .unauthorized
      else .error .unauthorized

/-- A concrete registration request used for the scenario-level parts of
the claims. -/
def sampleDto : RegisterMerchantDto :=
  { name := "Jane", email := "jane@x.com", password := "pw12345678",
    businessName := none, phone := none, website := none, businessType := none }

/-- The merchant produced by registering `sampleDto` into an empty
store at hour 0. -/
def sampleMerchant : Merchant := mkMerchant 0 sampleDto "hash" "tok1" 0

/-- The store after that registration. -/
def sampleStore : Store := [sampleMerchant]

/-! ## Shared lemmas -/

/-- A caught email attempt never changes the continuation. -/
theorem caught_eq {α : Type} (attempt : Except MerchantError Unit) (k : α) :
    caught attempt k = k := by
  cases attempt <;> rfl

/-- When a filter keeps at most one element, any two members of the
list satisfying the predicate coincide. -/
theorem eq_of_filter_length_le_one {α : Type} {l : List α} {p : α → Bool}
    (hlen : (l.filter p).length ≤ 1) {a b : α} (ha : a ∈ l) (hpa : p a = true)
    (hb : b ∈ l) (hpb : p b = true) : a = b := by
  have ha2 : a ∈ l.filter p := List.mem_filter.mpr ⟨ha, hpa⟩
  have hb2 : b ∈ l.filter p := List.mem_filter.mpr ⟨hb, hpb⟩
  cases hl : l.filter p with
  | nil => rw [hl] at ha2; exact absurd ha2 (List.not_mem_nil a)
  | cons c t =>
    cases t with
    | nil =>
      rw [hl] at ha2 hb2
      simp only [List.mem_singleton] at ha2 hb2
      rw [ha2, hb2]
    | cons d t2 =>
      rw [hl] at hlen
      simp at hlen

/-- One quota call never changes the stored limit. -/
theorem afterQuotaCall_limit (m : Merchant) :
    (afterQuotaCall m).apiQuotaLimit = m.apiQuotaLimit := by
  by_cases h : m.apiQuotaLimit ≤ m.apiQuotaUsed <;>
    simp [afterQuotaCall, checkAndIncrementApiQuota, h]

/-- One quota call preserves the used-within-limit invariant. -/
theorem afterQuotaCall_le (m : Merchant) (h : m.apiQuotaUsed ≤ m.apiQuotaLimit) :
    (afterQuotaCall m).apiQuotaUsed ≤ (afterQuotaCall m).apiQuotaLimit := by
  by_cases hle : m.apiQuotaLimit ≤ m.apiQuotaUsed <;>
    simp [afterQuotaCall, checkAndIncrementApiQuota, hle] <;> omega

/-- Any sequence of quota calls preserves the used-within-limit
invariant. -/
theorem iterateQuotaCalls_le :
    ∀ (n : Nat) (m : Merchant), m.apiQuotaUsed ≤ m.apiQuotaLimit →
      (iterateQuotaCalls m n).apiQuotaUsed ≤ (iterateQuotaCalls m n).apiQuotaLimit := by
  intro n
  induction n with
  | zero => intro m h; exact h
  | succ k ih =>
    intro m h
    show (iterateQuotaCalls (afterQuotaCall m) k).apiQuotaUsed ≤ _
    exact ih (afterQuotaCall m) (afterQuotaCall_le m h)

/-- A merchant at or over quota is a fixed point of quota calls. -/
theorem iterateQuotaCalls_fixed (m : Merchant)
    (h : m.apiQuotaLimit ≤ m.apiQuotaUsed) :
    ∀ n : Nat, iterateQuotaCalls m n = m := by
  have hfix : afterQuotaCall m = m := by
    simp [afterQuotaCall, checkAndIncrementApiQuota, h]
  intro n
  induction n with
  | zero => rfl
  | succ k ih =>
    show iterateQuotaCalls (afterQuotaCall m) k = m
    rw [hfix]
    exact ih

/-! ## Claims -/

/-- C1: `changeMerchantStatus` succeeds exactly along the edges of the
fixed transition table (PENDING to ACTIVE/SUSPENDED/CLOSED, ACTIVE to
INACTIVE/SUSPENDED/CLOSED, INACTIVE to ACTIVE/SUSPENDED/CLOSED,
SUSPENDED to ACTIVE/CLOSED, CLOSED to nothing); an off-table request
fails with InvalidStatus carrying the current and requested statuses
and leaves the merchant unchanged; a CLOSED merchant admits no status
change at all. -/
theorem changeStatus_follows_transition_table (m : Merchant)
    (dto : ChangeMerchantStatusDto) (now : Nat) (emailOk : Bool) :
    (validStatusTransitions .pending = [.active, .suspended, .closed]
      ∧ validStatusTransitions .active = [.inactive, .suspended, .closed]
      ∧ validStatusTransitions .inactive = [.active, .suspended, .closed]
      ∧ validStatusTransitions .suspended = [.active, .closed]
      ∧ validStatusTransitions .closed = [])
    ∧ ((changeMerchantStatus m dto now emailOk).isOk = true ↔
        dto.status ∈ validStatusTransitions m.status)
    ∧ (dto.status ∉ validStatusTransitions m.status →
        changeMerchantStatus m dto now emailOk
            = .error (.invalidStatus m.status dto.status)
          ∧ afterStatusChange m dto now emailOk = m)
    ∧ (m.status = .closed →
        changeMerchantStatus m dto now emailOk
          = .error (.invalidStatus m.status dto.status)) := by
  refine ⟨⟨rfl, rfl, rfl, rfl, rfl⟩, ?_, ?_, ?_⟩
  · by_cases h : dto.status ∈ validStatusTransitions m.status <;>
      simp [changeMerchantStatus, h, caught_eq, Except.isOk, Except.toBool]
  · intro h
    constructor <;> simp [changeMerchantStatus, afterStatusChange, h]
  · intro hclosed
    have h : dto.status ∉ validStatusTransitions m.status := by
      rw [hclosed]; simp [validStatusTransitions]
    simp [changeMerchantStatus, h]

/-- C1 witness: a CLOSED merchant rejects activation with
InvalidStatus(CLOSED, ACTIVE). -/
theorem changeStatus_follows_transition_table_witness :
    changeMerchantStatus { sampleMerchant with status := .closed }
        ⟨.active, none⟩ 1 true
      = .error (.invalidStatus .closed .active) :=
  (changeStatus_follows_transition_table
    { sampleMerchant with status := .closed } ⟨.active, none⟩ 1 true).2.2.2 rfl

/-- C3: `checkAndIncrementApiQuota` fails with QuotaExceeded carrying
the limit and reset time exactly when the used counter has reached the
limit, leaving the counter unchanged; otherwise it increments the
counter by exactly one; consequently any sequence of quota calls keeps
the counter within the limit. -/
theorem quota_check_and_increment (m : Merchant) :
    (m.apiQuotaLimit ≤ m.apiQuotaUsed →
        checkAndIncrementApiQuota m
            = .error (.quotaExceeded m.apiQuotaLimit m.apiQuotaResetAt)
          ∧ afterQuotaCall m = m)
    ∧ (m.apiQuotaUsed < m.apiQuotaLimit →
        checkAndIncrementApiQuota m = .ok { m with apiQuotaUsed := m.apiQuotaUsed + 1 })
    ∧ ((checkAndIncrementApiQuota m).isOk = false ↔ m.apiQuotaLimit ≤ m.apiQuotaUsed)
    ∧ (m.apiQuotaUsed ≤ m.apiQuotaLimit → ∀ n : Nat,
        (iterateQuotaCalls m n).apiQuotaUsed ≤ (iterateQuotaCalls m n).apiQuotaLimit) := by
  refine ⟨?_, ?_, ?_, fun h n => iterateQuotaCalls_le n m h⟩
  · intro h
    constructor <;> simp [checkAndIncrementApiQuota, afterQuotaCall, h]
  · intro h
    have h2 : ¬ m.apiQuotaLimit ≤ m.apiQuotaUsed := by omega
    simp [checkAndIncrementApiQuota, h2]
  · by_cases h : m.apiQuotaLimit ≤ m.apiQuotaUsed <;>
      simp [checkAndIncrementApiQuota, h, Except.isOk, Except.toBool]

/-- C3 witness: the freshly registered sample merchant (used 0, limit
1000) stays within its limit over 7 quota calls, and a merchant at the
limit fails with QuotaExceeded. -/
theorem quota_check_and_increment_witness :
    ((iterateQuotaCalls sampleMerchant 7).apiQuotaUsed
        ≤ (iterateQuotaCalls sampleMerchant 7).apiQuotaLimit)
    ∧ checkAndIncrementApiQuota { sampleMerchant with apiQuotaUsed := 1000 }
        = .error (.quotaExceeded 1000 none) :=
  ⟨(quota_check_and_increment sampleMerchant).2.2.2 (by decide) 7,
   ((quota_check_and_increment { sampleMerchant with apiQuotaUsed := 1000 }).1
     (by decide)).1⟩

/-- C10: the admin limit change `updateApiQuota` writes the requested
limit unconditionally without comparing it to the used counter; from a
reachable state (the sample merchant after 5 quota calls) lowering the
limit to 3 leaves used = 5 above limit = 3; any merchant at or over
its limit fails every subsequent quota call with QuotaExceeded and its
state stays fixed, until a quota reset or a raised limit lets calls
succeed again. -/
theorem updateApiQuota_breaks_quota_invariant :
    (∀ (m : Merchant) (dto : UpdateApiQuotaDto),
        (updateApiQuota m dto).apiQuotaLimit = dto.apiQuotaLimit
          ∧ (updateApiQuota m dto).apiQuotaUsed = m.apiQuotaUsed)
    ∧ ((updateApiQuota (iterateQuotaCalls sampleMerchant 5) ⟨3⟩).apiQuotaUsed = 5
        ∧ (updateApiQuota (iterateQuotaCalls sampleMerchant 5) ⟨3⟩).apiQuotaLimit = 3)
    ∧ (∀ m : Merchant, m.apiQuotaLimit ≤ m.apiQuotaUsed →
        checkAndIncrementApiQuota m
            = .error (.quotaExceeded m.apiQuotaLimit m.apiQuotaResetAt)
          ∧ ∀ n : Nat, iterateQuotaCalls m n = m)
    ∧ (checkAndIncrementApiQuota
          (resetApiQuota (updateApiQuota (iterateQuotaCalls sampleMerchant 5) ⟨3⟩))).isOk
        = true
    ∧ (checkAndIncrementApiQuota
          (updateApiQuota (updateApiQuota (iterateQuotaCalls sampleMerchant 5) ⟨3⟩)
            ⟨10⟩)).isOk
        = true := by
  refine ⟨fun m dto => ⟨rfl, rfl⟩, ⟨by decide, by decide⟩, ?_, by decide, by decide⟩
  intro m h
  exact ⟨by simp [checkAndIncrementApiQuota, h], iterateQuotaCalls_fixed m h⟩

/-- C10 witness: with used = 5 and limit lowered to 3, the quota check
fails with QuotaExceeded(3, none). -/
theorem updateApiQuota_breaks_quota_invariant_witness :
    checkAndIncrementApiQuota (updateApiQuota (iterateQuotaCalls sampleMerchant 5) ⟨3⟩)
      = .error (.quotaExceeded 3 none) :=
  (updateApiQuota_breaks_quota_invariant.2.2.1
    (updateApiQuota (iterateQuotaCalls sampleMerchant 5) ⟨3⟩) (by decide)).1

/-- C2: `verifyKyc` rejects with the KYC InvalidStatus error unless the
KYC status is PENDING or IN_REVIEW; on the decision "approved" it sets
kycStatus=APPROVED and kycVerifiedAt, and flips status to ACTIVE
exactly when the email is verified and the status is PENDING; with an
unverified email the status is unchanged. -/
theorem verifyKyc_approval (m : Merchant) (dto : VerifyKycDto) (now : Nat)
    (emailOk : Bool) :
    (¬ (m.kycStatus = .pending ∨ m.kycStatus = .inReview) →
        verifyKyc m dto now emailOk = .error (.kycInvalidStatus m.kycStatus dto.decision))
    ∧ ((m.kycStatus = .pending ∨ m.kycStatus = .inReview) → dto.decision = "approved" →
        ∃ m2, verifyKyc m dto now emailOk = .ok m2
          ∧ m2.kycStatus = .approved
          ∧ m2.kycVerifiedAt = some now
          ∧ m2.status
              = (if m.emailVerified ∧ m.status = .pending then .active else m.status)
          ∧ (m.emailVerified = false → m2.status = m.status)) := by
  constructor
  · intro h
    simp [verifyKyc, h]
  · intro hs hd
    by_cases he : m.emailVerified ∧ m.status = .pending
    · refine ⟨{ m with kycStatus := .approved, kycVerifiedAt := some now,
                       status := .active }, ?_, rfl, rfl, ?_, ?_⟩
      · simp [verifyKyc, hs, hd, he, caught_eq]
      · simp [he]
      · intro hev
        exact absurd he.1 (by simp [hev])
    · refine ⟨{ m with kycStatus := .approved, kycVerifiedAt := some now },
              ?_, rfl, rfl, ?_, fun _ => rfl⟩
      · simp [verifyKyc, hs, hd, he, caught_eq]
      · simp [he]

/-- C2 witness: a merchant whose KYC is already APPROVED is rejected
with KycInvalidStatus(APPROVED, "approved"). -/
theorem verifyKyc_approval_witness :
    verifyKyc { sampleMerchant with kycStatus := .approved } ⟨"approved", none⟩ 2 true
      = .error (.kycInvalidStatus .approved "approved") :=
  (verifyKyc_approval { sampleMerchant with kycStatus := .approved }
    ⟨"approved", none⟩ 2 true).1 (by decide)

/-- C6: for a merchant that is neither SUSPENDED nor CLOSED,
`updateCurrencySettings` stores a supported-currency list containing
the requested default (appending it when the request omits it), so the
invariant defaultCurrency ∈ supportedCurrencies holds after the
update. -/
theorem currency_update_keeps_default_supported (m : Merchant)
    (dto : CurrencySettingsDto) (hs : m.status ≠ .suspended)
    (hc : m.status ≠ .closed) :
    ∃ m2, updateCurrencySettings m dto = .ok m2
      ∧ m2.defaultCurrency ∈ m2.supportedCurrencies
      ∧ m2.defaultCurrency = dto.defaultCurrency
      ∧ (dto.supportedCurrencies.contains dto.defaultCurrency = true →
          m2.supportedCurrencies = dto.supportedCurrencies)
      ∧ (dto.supportedCurrencies.contains dto.defaultCurrency = false →
          m2.supportedCurrencies = dto.supportedCurrencies ++ [dto.defaultCurrency]) := by
  have hval : validateMerchantActive m = .ok () := by
    simp [validateMerchantActive, hs, hc]
  by_cases hin : dto.supportedCurrencies.contains dto.defaultCurrency
  · have hmem : dto.defaultCurrency ∈ dto.supportedCurrencies :=
      List.mem_of_elem_eq_true hin
    refine ⟨{ m with supportedCurrencies := dto.supportedCurrencies,
                     defaultCurrency := dto.defaultCurrency },
            ?_, hmem, rfl, fun _ => rfl,
            fun hfalse => by rw [hin] at hfalse; simp at hfalse⟩
    unfold updateCurrencySettings
    rw [hval]
    simp [hmem]
  · have hmem : dto.defaultCurrency ∉ dto.supportedCurrencies :=
      fun h => hin (List.elem_eq_true_of_mem h)
    refine ⟨{ m with supportedCurrencies := dto.supportedCurrencies ++ [dto.defaultCurrency],
                     defaultCurrency := dto.defaultCurrency },
            ?_, by simp, rfl,
            fun htrue => absurd htrue hin, fun _ => rfl⟩
    unfold updateCurrencySettings
    rw [hval]
    simp [hmem]

/-- C6 witness: requesting default GBP with supported list EUR only
yields a stored list containing GBP. -/
theorem currency_update_keeps_default_supported_witness :
    ∃ m2, updateCurrencySettings sampleMerchant ⟨["EUR"], "GBP"⟩ = .ok m2
      ∧ m2.defaultCurrency ∈ m2.supportedCurrencies := by
  obtain ⟨m2, h1, h2, _⟩ :=
    currency_update_keeps_default_supported sampleMerchant ⟨["EUR"], "GBP"⟩
      (by decide) (by decide)
  exact ⟨m2, h1, h2⟩

/-- The success condition of `validateBankAccountDetails`, spelled out
as the four format requirements. -/
theorem validateBankAccountDetails_ok_iff (dto : BankAccountDto) :
    validateBankAccountDetails dto = .ok () ↔
      (isAccountNumberFormat dto.accountNumber
        ∧ (strTruthy dto.routingNumber = true →
            isRoutingNumberFormat (dto.routingNumber.getD ""))
        ∧ (strTruthy dto.swiftCode = true →
            isSwiftCodeFormat (dto.swiftCode.getD ""))
        ∧ (strTruthy dto.iban = true → isIbanFormat (dto.iban.getD ""))) := by
  unfold validateBankAccountDetails
  split_ifs with h1 h2 h3 h4
  · exact iff_of_false not_false (fun hconj => h2.2 (hconj.2.1 h2.1))
  · exact iff_of_false not_false (fun hconj => h3.2 (hconj.2.2.1 h3.1))
  · exact iff_of_false not_false (fun hconj => h4.2 (hconj.2.2.2 h4.1))
  · exact iff_of_true rfl
      ⟨h1,
       fun ht => not_not.mp (fun hf => h2 ⟨ht, hf⟩),
       fun ht => not_not.mp (fun hf => h3 ⟨ht, hf⟩),
       fun ht => not_not.mp (fun hf => h4 ⟨ht, hf⟩)⟩
  · exact iff_of_false not_false (fun hconj => h1 hconj.1)

/-- C7: for a merchant that is neither SUSPENDED nor CLOSED, a bank
account update succeeds exactly when the account number is 4-17
digits, a present routing number is exactly 9 digits, a present SWIFT
code matches its pattern and a present IBAN matches its pattern; a
malformed account number fails first with its message; on success the
fields are stored with bankAccountStatus=PENDING.  Scenario: account
number "12" fails, "1234567890" with routing "123" fails, and with
routing "021000021" succeeds with status PENDING. -/
theorem bank_account_update_validation (m : Merchant) (dto : BankAccountDto)
    (hs : m.status ≠ .suspended) (hc : m.status ≠ .closed) :
    ((updateBankAccount m dto).isOk = true ↔
      (isAccountNumberFormat dto.accountNumber
        ∧ (strTruthy dto.routingNumber = true →
            isRoutingNumberFormat (dto.routingNumber.getD ""))
        ∧ (strTruthy dto.swiftCode = true →
            isSwiftCodeFormat (dto.swiftCode.getD ""))
        ∧ (strTruthy dto.iban = true → isIbanFormat (dto.iban.getD ""))))
    ∧ (¬ isAccountNumberFormat dto.accountNumber →
        updateBankAccount m dto
          = .error (.bankAccountInvalid "Invalid account number format"))
    ∧ (validateBankAccountDetails dto = .ok () →
        updateBankAccount m dto = .ok { m with
          bankAccountNumber := some dto.accountNumber,
          bankRoutingNumber := dto.routingNumber,
          bankAccountHolderName := dto.accountHolderName,
          bankName := dto.bankName,
          bankSwiftCode := dto.swiftCode,
          bankIban := dto.iban,
          bankAccountStatus := .pending })
    ∧ updateBankAccount sampleMerchant ⟨"12", none, none, none, none, none⟩
        = .error (.bankAccountInvalid "Invalid account number format")
    ∧ updateBankAccount sampleMerchant ⟨"1234567890", some "123", none, none, none, none⟩
        = .error (.bankAccountInvalid "Invalid routing number format")
    ∧ ∃ m2, updateBankAccount sampleMerchant
          ⟨"1234567890", some "021000021", none, none, none, none⟩ = .ok m2
        ∧ m2.bankAccountStatus = .pending := by
  have hval : validateMerchantActive m = .ok () := by
    simp [validateMerchantActive, hs, hc]
  refine ⟨?_, ?_, ?_, by decide, by decide, ⟨_, rfl, rfl⟩⟩
  · unfold updateBankAccount
    rw [hval]
    cases hv : validateBankAccountDetails dto with
    | ok u =>
      cases u
      exact iff_of_true rfl ((validateBankAccountDetails_ok_iff dto).mp hv)
    | error e =>
      have hnot : ¬ (isAccountNumberFormat dto.accountNumber
          ∧ (strTruthy dto.routingNumber = true →
              isRoutingNumberFormat (dto.routingNumber.getD ""))
          ∧ (strTruthy dto.swiftCode = true →
              isSwiftCodeFormat (dto.swiftCode.getD ""))
          ∧ (strTruthy dto.iban = true → isIbanFormat (dto.iban.getD ""))) := by
        intro hconj
        rw [(validateBankAccountDetails_ok_iff dto).mpr hconj] at hv
        cases hv
      simp [Except.isOk, Except.toBool, hnot]
  · intro h
    unfold updateBankAccount
    rw [hval]
    simp [validateBankAccountDetails, h]
  · intro hv
    unfold updateBankAccount
    rw [hval, hv]

/-- C7 witness: the too-short account number "12" is rejected with the
account-number message. -/
theorem bank_account_update_validation_witness :
    updateBankAccount sampleMerchant ⟨"12", none, none, none, none, none⟩
      = .error (.bankAccountInvalid "Invalid account number format") :=
  (bank_account_update_validation sampleMerchant
    ⟨"12", none, none, none, none, none⟩ (by decide) (by decide)).2.1 (by decide)

/-- C4: registering a second time with the same email up to letter case
fails with AlreadyExists (so no second record is created): after a
successful registration, any registration whose email lowercases to
the same string is rejected. -/
theorem duplicate_registration_rejected (store : Store)
    (dto1 dto2 : RegisterMerchantDto) (h1 t1 h2 t2 : String) (n1 n2 : Nat)
    (e1 e2 : Bool) (m1 : Merchant) (store1 : Store)
    (hcase : lowerString dto1.email = lowerString dto2.email)
    (hreg : registerMerchant store dto1 h1 t1 n1 e1 = .ok (m1, store1)) :
    registerMerchant store1 dto2 h2 t2 n2 e2 = .error (.alreadyExists dto2.email) := by
  unfold registerMerchant at hreg
  cases hf : findByEmail store dto1.email with
  | some m => rw [hf] at hreg; simp at hreg
  | none =>
    rw [hf, caught_eq] at hreg
    have hpair : mkMerchant store.length dto1 h1 t1 n1 = m1
        ∧ store ++ [mkMerchant store.length dto1 h1 t1 n1] = store1 := by
      simpa [Prod.ext_iff] using hreg
    obtain ⟨hm1, hstore1⟩ := hpair
    have hfind : findByEmail store1 dto2.email
        = some (mkMerchant store.length dto1 h1 t1 n1) := by
      rw [← hstore1]
      unfold findByEmail at hf ⊢
      rw [List.find?_append, ← hcase, hf]
      simp [mkMerchant]
    unfold registerMerchant
    rw [hfind]

/-- C4 witness: registering jane@x.com and then JANE@X.com yields
AlreadyExists on the second call. -/
theorem duplicate_registration_rejected_witness :
    registerMerchant sampleStore { sampleDto with email := "JANE@X.com" }
        "h2" "t2" 3 true
      = .error (.alreadyExists "JANE@X.com") :=
  duplicate_registration_rejected [] sampleDto
    { sampleDto with email := "JANE@X.com" } "hash" "tok1" "h2" "t2" 0 3
    true true sampleMerchant sampleStore (by decide) (by decide)

/-- C5: `verifyEmail` fails TokenInvalid when no merchant holds the
token, AlreadyVerified when the holder is already verified,
TokenExpired when the expiry has passed, in that precedence order; on
success it sets the verified flag and timestamp and clears token and
expiry; hence (token held by at most one merchant) a consumed token
never verifies again, and an expired token stays expired at any later
time. -/
theorem verifyEmail_token_lifecycle (store : Store) (token : String)
    (now now2 : Nat) (e1 e2 : Bool) :
    (findByVerificationToken store token = none →
        verifyEmail store token now e1 = .error .tokenInvalid)
    ∧ (∀ m : Merchant, findByVerificationToken store token = some m →
        (m.emailVerified = true →
            verifyEmail store token now e1 = .error .emailAlreadyVerified)
        ∧ (m.emailVerified = false →
            tokenExpiredAt m.emailVerificationExpiresAt now = true →
            verifyEmail store token now e1 = .error .tokenExpired)
        ∧ (m.emailVerified = false →
            tokenExpiredAt m.emailVerificationExpiresAt now = false →
            verifyEmail store token now e1 = .ok
              ({ m with emailVerified := true, emailVerifiedAt := some now,
                        emailVerificationToken := none,
                        emailVerificationExpiresAt := none },
               updateById store m.id
                 { m with emailVerified := true, emailVerifiedAt := some now,
                          emailVerificationToken := none,
                          emailVerificationExpiresAt := none })))
    ∧ ((store.filter (fun x => x.emailVerificationToken == some token)).length ≤ 1 →
        ∀ (m2 : Merchant) (store2 : Store),
          verifyEmail store token now e1 = .ok (m2, store2) →
          verifyEmail store2 token now2 e2 = .error .tokenInvalid)
    ∧ (verifyEmail store token now e1 = .error .tokenExpired → now ≤ now2 →
        verifyEmail store token now2 e2 = .error .tokenExpired) := by
  refine ⟨?_, ?_, ?_, ?_⟩
  · intro h
    simp [verifyEmail, h]
  · intro m hm
    refine ⟨?_, ?_, ?_⟩
    · intro hv
      simp [verifyEmail, hm, hv]
    · intro hv hexp
      simp [verifyEmail, hm, hv, hexp]
    · intro hv hexp
      simp [verifyEmail, hm, hv, hexp, caught_eq]
  · intro hlen m2 store2 hok
    cases hm : findByVerificationToken store token with
    | none => unfold verifyEmail at hok; rw [hm] at hok; simp at hok
    | some m =>
      unfold verifyEmail at hok
      rw [hm] at hok
      by_cases hv : m.emailVerified
      · simp [hv] at hok
      · by_cases hexp : tokenExpiredAt m.emailVerificationExpiresAt now = true
        · simp [hv, hexp] at hok
        · simp [hv, hexp, caught_eq, Prod.ext_iff] at hok
          obtain ⟨hm2, hstore2⟩ := hok
          have hnone : findByVerificationToken store2 token = none := by
            unfold findByVerificationToken
            apply List.find?_eq_none.mpr
            intro x hx
            rw [← hstore2] at hx
            unfold updateById at hx
            obtain ⟨y, hy, hxy⟩ := List.mem_map.mp hx
            by_cases hid : (y.id == m.id) = true
            · rw [if_pos hid] at hxy
              rw [← hxy]
              simp
            · rw [if_neg hid] at hxy
              subst hxy
              intro hyt
              have hm2 : store.find?
                  (fun x => x.emailVerificationToken == some token) = some m := hm
              have hmm : m ∈ store := List.mem_of_find?_eq_some hm2
              have hpm := List.find?_some hm2
              have hym : y = m := eq_of_filter_length_le_one hlen hy hyt hmm hpm
              rw [hym] at hid
              simp at hid
          simp [verifyEmail, hnone]
  · intro herr hle
    cases hm : findByVerificationToken store token with
    | none => unfold verifyEmail at herr; rw [hm] at herr; simp at herr
    | some m =>
      unfold verifyEmail at herr
      rw [hm] at herr
      by_cases hv : m.emailVerified
      · simp [hv] at herr
      · by_cases hexp : tokenExpiredAt m.emailVerificationExpiresAt now = true
        · have hexp2 : tokenExpiredAt m.emailVerificationExpiresAt now2 = true := by
            cases he : m.emailVerificationExpiresAt with
            | none => rw [he] at hexp; simp [tokenExpiredAt] at hexp
            | some e =>
              rw [he] at hexp
              simp [tokenExpiredAt] at hexp ⊢
              omega
          simp [verifyEmail, hm, hv, hexp2]
        · simp [hv, hexp, caught_eq] at herr

/-- C5 witness: the registered sample token verifies once; afterwards
the same token is TokenInvalid; the precondition that at most one
merchant holds the token is discharged on the one-element sample
store. -/
theorem verifyEmail_token_lifecycle_witness :
    verifyEmail (updateById sampleStore 0
        { sampleMerchant with emailVerified := true, emailVerifiedAt := some 1,
                              emailVerificationToken := none,
                              emailVerificationExpiresAt := none })
        "tok1" 2 true
      = .error .tokenInvalid := by
  have h := (verifyEmail_token_lifecycle sampleStore "tok1" 1 2 true true).2.2.1
    (by decide)
    { sampleMerchant with emailVerified := true, emailVerifiedAt := some 1,
                          emailVerificationToken := none,
                          emailVerificationExpiresAt := none }
    (updateById sampleStore 0
      { sampleMerchant with emailVerified := true, emailVerifiedAt := some 1,
                            emailVerificationToken := none,
                            emailVerificationExpiresAt := none })
    (by decide)
  exact h

/-- C8 (amended): for registration, email verification, KYC submission,
the KYC decision, bank verification and status changes (suspension and
reactivation included), the result is identical whether the email send
succeeds or throws — the failure is swallowed. -/
theorem email_send_failures_swallowed :
    (∀ (store : Store) (dto : RegisterMerchantDto) (h t : String) (now : Nat)
        (e1 e2 : Bool),
        registerMerchant store dto h t now e1 = registerMerchant store dto h t now e2)
    ∧ (∀ (store : Store) (token : String) (now : Nat) (e1 e2 : Bool),
        verifyEmail store token now e1 = verifyEmail store token now e2)
    ∧ (∀ (m : Merchant) (dto : SubmitKycDto) (now : Nat) (e1 e2 : Bool),
        submitKycDocuments m dto now e1 = submitKycDocuments m dto now e2)
    ∧ (∀ (m : Merchant) (dto : VerifyKycDto) (now : Nat) (e1 e2 : Bool),
        verifyKyc m dto now e1 = verifyKyc m dto now e2)
    ∧ (∀ (m : Merchant) (r : BankVerifyResult) (now : Nat) (e1 e2 : Bool),
        verifyBankAccount m r now e1 = verifyBankAccount m r now e2)
    ∧ (∀ (m : Merchant) (dto : ChangeMerchantStatusDto) (now : Nat) (e1 e2 : Bool),
        changeMerchantStatus m dto now e1 = changeMerchantStatus m dto now e2) := by
  refine ⟨?_, ?_, ?_, ?_, ?_, ?_⟩
  · intro store dto h t now e1 e2
    unfold registerMerchant
    cases hf : findByEmail store dto.email <;> simp [caught_eq]
  · intro store token now e1 e2
    unfold verifyEmail
    cases hf : findByVerificationToken store token <;> simp [caught_eq]
  · intro m dto now e1 e2
    simp [submitKycDocuments, caught_eq]
  · intro m dto now e1 e2
    simp [verifyKyc, caught_eq]
  · intro m r now e1 e2
    simp [verifyBankAccount, caught_eq]
  · intro m dto now e1 e2
    simp [changeMerchantStatus, caught_eq]

/-- C8 counterexample: `resendVerificationEmail` has no try/catch around
its send, so on the sample store the call surfaces the sender's error
when the send fails, while the same call with a working sender returns
normally — the claim fails for resendVerificationEmail. -/
theorem resend_propagates_email_failure :
    (resendVerificationEmail sampleStore "jane@x.com" "tok2" 1 false).1
        = .error .emailSendFailed
    ∧ (resendVerificationEmail sampleStore "jane@x.com" "tok2" 1 true).1
        = .ok () := by
  constructor <;> decide

/-- C9: admin login with at least 5 recent failed attempts for the email
inside the lockout window fails Forbidden regardless of credentials;
below the lockout threshold, a user whose role is neither ADMIN nor
SUPPORT_ADMIN is refused with Unauthorized. -/
theorem admin_login_lockout_and_roles (attempts : List LoginAttempt)
    (now window : Nat) (user : Option AdminUser) (passwordOk : Bool)
    (email : String) :
    (5 ≤ countRecentFailedAttempts attempts email now window →
        adminLogin attempts now window user passwordOk email = .error .forbidden)
    ∧ (countRecentFailedAttempts attempts email now window < 5 →
        ∀ u : AdminUser, user = some u →
          u.role ≠ .admin → u.role ≠ .supportAdmin →
          adminLogin attempts now window user passwordOk email
            = .error .unauthorized) := by
  constructor
  · intro h
    simp [adminLogin, h]
  · intro h u hu ha hsa
    have hn : ¬ 5 ≤ countRecentFailedAttempts attempts email now window := by omega
    have hrole : ¬ (u.role = .admin ∨ u.role = .supportAdmin) :=
      fun hr => hr.elim ha hsa
    simp [adminLogin, hn, hu, hrole]

/-- C9 witness: five recorded failures lock the sixth attempt out with
Forbidden even with correct credentials and an ADMIN user; with no
failures a USER-role account gets Unauthorized. -/
theorem admin_login_lockout_and_roles_witness :
    adminLogin
        [⟨"a@x.com", false, 0⟩, ⟨"a@x.com", false, 1⟩, ⟨"a@x.com", false, 2⟩,
         ⟨"a@x.com", false, 3⟩, ⟨"a@x.com", false, 4⟩]
        5 24 (some ⟨"u1", "a@x.com", .admin, true⟩) true "a@x.com"
        = .error .forbidden
    ∧ adminLogin [] 5 24 (some ⟨"u1", "a@x.com", .user, true⟩) true "a@x.com"
        = .error .unauthorized :=
  ⟨(admin_login_lockout_and_roles
      [⟨"a@x.com", false, 0⟩, ⟨"a@x.com", false, 1⟩, ⟨"a@x.com", false, 2⟩,
       ⟨"a@x.com", false, 3⟩, ⟨"a@x.com", false, 4⟩]
      5 24 (some ⟨"u1", "a@x.com", .admin, true⟩) true "a@x.com").1 (by decide),
   (admin_login_lockout_and_roles [] 5 24
      (some ⟨"u1", "a@x.com", .user, true⟩) true "a@x.com").2 (by decide)
     ⟨"u1", "a@x.com", .user, true⟩ rfl (by decide) (by decide)⟩

end DabDub
